import Mathlib

/-!
Verification of the SSMS MCP server adapter layer.

The TypeScript source is shallowly embedded: pure request-building and
validation code becomes Lean functions; the database driver (the `mssql`
connection pool) is an oracle parameter; the fixed catalog queries issued by
the introspection methods are given their documented semantics over an
explicit `Catalog` value; async/await control flow with try/catch becomes
`Except String`.
-/

/-- A JSON-ish value, the payload type of JS objects passed through the tools. -/
inductive JsValue where
  | str (s : String)
  | num (n : Int)
  | boolean (b : Bool)
  | null
deriving DecidableEq

/-- A JS plain object as used for parameter records and result rows:
an association list with (by JS object semantics) unique keys. -/
abbrev JsRecord := List (String × JsValue)

/-- A result row returned by the driver. -/
abbrev Row := JsRecord

/-- The raw result the `mssql` driver returns for one request:
the recordset plus the driver-reported affected-row count.
`DataManagementDatabase.executeQuery` in the source returns only
`result.recordset`; `rowsAffected` is never read by the code. -/
structure DriverResult where
  recordset : List Row
  rowsAffected : Nat
deriving DecidableEq

/-- The two logical database targets (`database: 'master' | 'datamgmt'`). -/
inductive Target where
  | master
  | datamgmt
deriving DecidableEq

/-- The string value of a `Target` as it appears in tool arguments and URIs. -/
def targetName : Target → String
  | .master => "master"
  | .datamgmt => "datamgmt"

/-! ## Catalog model

The introspection methods of `DataManagementDatabase` issue fixed SQL against
the system catalog (INFORMATION_SCHEMA / sys.triggers).  We model the catalog
contents explicitly and give each fixed query its semantics: a WHERE clause is
a filter, a SELECT list a projection, ORDER BY a sort. -/

/-- One row of INFORMATION_SCHEMA.TABLES. -/
structure CatTable where
  table_schema : String
  table_name : String
  /-- Whether TABLE_TYPE = 'BASE TABLE' (as opposed to a view entry). -/
  isBaseTable : Bool
deriving DecidableEq

/-- One row of INFORMATION_SCHEMA.VIEWS. -/
structure CatView where
  table_schema : String
  table_name : String
deriving DecidableEq

/-- One row of INFORMATION_SCHEMA.ROUTINES. -/
structure CatRoutine where
  routine_schema : String
  routine_name : String
  /-- Whether ROUTINE_TYPE = 'PROCEDURE'. -/
  isProcedure : Bool
deriving DecidableEq

/-- One row of sys.triggers (joined with the object/schema name functions
the query applies). -/
structure CatTrigger where
  name : String
  /-- OBJECT_NAME(t.parent_id). -/
  parent_table : String
  /-- SCHEMA_NAME(t.schema_id). -/
  schema : String
  /-- t.is_disabled (bit). -/
  is_disabled : Bool
deriving DecidableEq

/-- One row of INFORMATION_SCHEMA.COLUMNS. -/
structure CatColumn where
  table_name : String
  table_schema : String
  column_name : String
  data_type : String
  is_nullable : String
  column_default : Option String
  character_maximum_length : Option Int
  ordinal_position : Nat
deriving DecidableEq

/-- The system catalog of one database target. -/
structure Catalog where
  tables : List CatTable
  views : List CatView
  routines : List CatRoutine
  triggers : List CatTrigger
  columns : List CatColumn
deriving DecidableEq

/-! ## Result-row shapes returned by the introspection methods -/

/-- Row shape of `getTables()` and `getViews()`:
`{ table_schema, table_name }`. -/
structure TableRow where
  table_schema : String
  table_name : String
deriving DecidableEq

/-- Row shape of `getStoredProcedures()`: `{ routine_schema, routine_name }`. -/
structure ProcRow where
  routine_schema : String
  routine_name : String
deriving DecidableEq

/-- Row shape of `getTriggers()`:
`{ trigger_name, table_name, trigger_schema }`. -/
structure TrigRow where
  trigger_name : String
  table_name : String
  trigger_schema : String
deriving DecidableEq

/-- Row shape of `getTableSchema()`. -/
structure ColumnRow where
  column_name : String
  data_type : String
  is_nullable : String
  column_default : Option String
  character_maximum_length : Option Int
deriving DecidableEq

/-! ## JS string primitives

The position-based core `String` functions do not reduce inside the kernel,
so the JS string methods the source relies on are embedded over the
underlying character lists. -/

/-- Whether `pat` is a prefix of `s` (both as character lists). -/
def listStartsWith : (pat s : List Char) → Bool
  | [], _ => true
  | _ :: _, [] => false
  | p :: ps, c :: cs => p == c && listStartsWith ps cs

/-- JS `s.startsWith(pat)`. -/
def jsStartsWith (s pat : String) : Bool :=
  listStartsWith pat.data s.data

/-- JS whitespace (the ASCII subset, which is all that matters here). -/
def jsWhitespaceChar (c : Char) : Bool :=
  c == ' ' || c == '\t' || c == '\n' || c == '\r'

/-- JS `s.trim()`: strip leading and trailing whitespace. -/
def jsTrim (s : String) : String :=
  String.mk (((s.data.dropWhile jsWhitespaceChar).reverse.dropWhile
    jsWhitespaceChar).reverse)

/-- JS `s.toLowerCase()` (ASCII case mapping; the gate keywords are ASCII). -/
def jsToLower (s : String) : String :=
  String.mk (s.data.map Char.toLower)

/-- One-character JS `split`, on character lists. -/
def splitOnChar (sep : Char) : List Char → List (List Char)
  | [] => [[]]
  | c :: cs =>
      match splitOnChar sep cs with
      | [] => [[]]
      | g :: gs => if c == sep then [] :: g :: gs else (c :: g) :: gs

/-- JS `uri.split('/')`. -/
def jsSplitSlash (s : String) : List String :=
  (splitOnChar '/' s.data).map String.mk

/-- Whether `pat` occurs as a contiguous subsequence of `s`. -/
def listContainsSub (pat : List Char) : List Char → Bool
  | [] => listStartsWith pat []
  | c :: cs => listStartsWith pat (c :: cs) || listContainsSub pat cs

/-- JS `s.includes(pat)`. -/
def jsIncludes (s pat : String) : Bool :=
  listContainsSub pat.data s.data

/-! ## ORDER BY key relations

String columns are compared by their character lists (the `LinearOrder` on
`List Char`), a faithful stand-in for the server collation: the claims only
concern which keys a result is ordered by. -/

/-- Source `ORDER BY <schema column>, <name column>`: lexicographic on the pair of
string keys selected by `f`. -/
def pairKeyLe (f : α → String × String) (a b : α) : Prop :=
  (f a).1.data < (f b).1.data ∨
    ((f a).1.data = (f b).1.data ∧ (f a).2.data ≤ (f b).2.data)

instance (f : α → String × String) : DecidableRel (pairKeyLe f) := fun a b => by
  unfold pairKeyLe
  infer_instance

instance (f : α → String × String) : IsTrans α (pairKeyLe f) := by
  constructor
  intro a b c hab hbc
  rcases hab with h1 | ⟨e1, l1⟩ <;> rcases hbc with h2 | ⟨e2, l2⟩
  · exact Or.inl (lt_trans h1 h2)
  · exact Or.inl (e2 ▸ h1)
  · exact Or.inl (by rw [e1]; exact h2)
  · exact Or.inr ⟨e1.trans e2, le_trans l1 l2⟩

instance (f : α → String × String) : IsTotal α (pairKeyLe f) := by
  constructor
  intro a b
  rcases lt_trichotomy (f a).1.data (f b).1.data with h | h | h
  · exact Or.inl (Or.inl h)
  · rcases le_total (f a).2.data (f b).2.data with l | l
    · exact Or.inl (Or.inr ⟨h, l⟩)
    · exact Or.inr (Or.inr ⟨h.symm, l⟩)
  · exact Or.inr (Or.inl h)

/-- Source `ORDER BY <string column>`: the single string key selected by `f`. -/
def strKeyLe (f : α → String) (a b : α) : Prop :=
  (f a).data ≤ (f b).data

instance (f : α → String) : DecidableRel (strKeyLe f) := fun a b => by
  unfold strKeyLe
  infer_instance

instance (f : α → String) : IsTrans α (strKeyLe f) :=
  ⟨fun _ _ _ => le_trans⟩

instance (f : α → String) : IsTotal α (strKeyLe f) :=
  ⟨fun a b => le_total (f a).data (f b).data⟩

/-- Source `ORDER BY <numeric column>`: the numeric key selected by `f`. -/
def natKeyLe (f : α → Nat) (a b : α) : Prop :=
  f a ≤ f b

instance (f : α → Nat) : DecidableRel (natKeyLe f) := fun a b => by
  unfold natKeyLe
  infer_instance

instance (f : α → Nat) : IsTrans α (natKeyLe f) :=
  ⟨fun _ _ _ => Nat.le_trans⟩

instance (f : α → Nat) : IsTotal α (natKeyLe f) :=
  ⟨fun a b => Nat.le_total (f a) (f b)⟩

/-! ## DataManagementDatabase: catalog query methods

Each method below is the semantics of the fixed SQL string the source sends
through `executeQuery`, evaluated on a `Catalog`.  (`MasterDatabase` is the
same class text against the master configuration; all claims cite the
data-management copy.) -/

/-- Source `getTables()`: SELECT schema/name FROM INFORMATION_SCHEMA.TABLES
WHERE TABLE_TYPE = 'BASE TABLE' ORDER BY TABLE_SCHEMA, TABLE_NAME. -/
def DataManagementDatabase.getTables (cat : Catalog) : List TableRow :=
  List.insertionSort (pairKeyLe (fun r => (r.table_schema, r.table_name)))
    ((cat.tables.filter (fun t => t.isBaseTable)).map
      (fun t => TableRow.mk t.table_schema t.table_name))

/-- Source `getViews()`: SELECT schema/name FROM INFORMATION_SCHEMA.VIEWS
ORDER BY TABLE_SCHEMA, TABLE_NAME. -/
def DataManagementDatabase.getViews (cat : Catalog) : List TableRow :=
  List.insertionSort (pairKeyLe (fun r => (r.table_schema, r.table_name)))
    (cat.views.map (fun v => TableRow.mk v.table_schema v.table_name))

/-- Source `getStoredProcedures()`: SELECT schema/name FROM INFORMATION_SCHEMA.ROUTINES
WHERE ROUTINE_TYPE = 'PROCEDURE' ORDER BY ROUTINE_SCHEMA, ROUTINE_NAME. -/
def DataManagementDatabase.getStoredProcedures (cat : Catalog) : List ProcRow :=
  List.insertionSort (pairKeyLe (fun r => (r.routine_schema, r.routine_name)))
    ((cat.routines.filter (fun r => r.isProcedure)).map
      (fun r => ProcRow.mk r.routine_schema r.routine_name))

/-- Source `getTriggers()`: SELECT name, OBJECT_NAME(parent_id), SCHEMA_NAME(schema_id)
FROM sys.triggers t WHERE t.is_disabled = 0 ORDER BY t.name.
Note the ORDER BY key is the trigger name alone. -/
def DataManagementDatabase.getTriggers (cat : Catalog) : List TrigRow :=
  List.insertionSort (strKeyLe (fun r => r.trigger_name))
    ((cat.triggers.filter (fun t => !t.is_disabled)).map
      (fun t => TrigRow.mk t.name t.parent_table t.schema))

/-- The rows of INFORMATION_SCHEMA.COLUMNS selected by `getTableSchema`:
WHERE TABLE_NAME = @tableName AND TABLE_SCHEMA = @schema
ORDER BY ORDINAL_POSITION (before the SELECT-list projection). -/
def tableSchemaRows (cat : Catalog) (tableName schema : String) : List CatColumn :=
  List.insertionSort (natKeyLe (fun c => c.ordinal_position))
    (cat.columns.filter
      (fun c => c.table_name == tableName && c.table_schema == schema))

/-- Source `getTableSchema(tableName, schema = 'dbo')`: the projection of the sorted
matching INFORMATION_SCHEMA.COLUMNS rows. -/
def DataManagementDatabase.getTableSchema (cat : Catalog) (tableName : String)
    (schema : String := "dbo") : List ColumnRow :=
  (tableSchemaRows cat tableName schema).map
    (fun c => ColumnRow.mk c.column_name c.data_type c.is_nullable
      c.column_default c.character_maximum_length)

/-! ## Connection Manager state machine (`connect` / `disconnect`)

In the source:

    async connect() {
      if (!this.pool) {
        this.pool = new sql.ConnectionPool(config.dataMgmtDb);
        await this.pool.connect();
      }
    }
    async disconnect() {
      if (this.pool) { await this.pool.close(); this.pool = null; }
    }

The assignment to `this.pool` happens before the awaited `pool.connect()`, so
a rejected connect leaves the never-connected handle stored.  `freshId`
identifies the ConnectionPool object a call would construct; `connectOk` is
the outcome of the awaited `pool.connect()`; the second component of the
result is the error raised past the method, if any. -/

/-- A constructed `sql.ConnectionPool` handle. -/
structure Pool where
  id : Nat
  connected : Bool
deriving DecidableEq

/-- The mutable field `this.pool : sql.ConnectionPool | null`. -/
structure ConnState where
  pool : Option Pool
deriving DecidableEq

/-- Source `connect()` as a state transition (see the section comment). -/
def DataManagementDatabase.connect (freshId : Nat) (connectOk : Bool)
    (s : ConnState) : ConnState × Option String :=
  match s.pool with
  | some _ => (s, none)
  | none =>
      let p : Pool := { id := freshId, connected := connectOk }
      ({ pool := some p }, if connectOk then none else some "connect failed")

/-- Source `disconnect()` as a state transition: closes and clears the pool if
present, otherwise does nothing. -/
def DataManagementDatabase.disconnect (s : ConnState) : ConnState × Option String :=
  match s.pool with
  | some _ => ({ pool := none }, none)
  | none => (s, none)

/-! ## Driver-level execution

`executeQuery(query, parameters?)` connects, binds each parameter with
`request.input`, runs the text, and returns `result.recordset`.  The entire
driver round-trip (pool, request, network) is abstracted as an oracle
`run : String -> JsRecord -> Except String DriverResult` from the statement
text and the bound parameters to the driver outcome. -/

/-- The driver oracle: outcome of one parameterized statement. -/
abbrev Driver := String → JsRecord → Except String DriverResult

/-- Source `executeQuery`: run the statement, return only `result.recordset`.
(The driver-reported `rowsAffected` is dropped here, exactly as in the
source.) -/
def DataManagementDatabase.executeQuery (run : Driver) (query : String)
    (parameters : JsRecord) : Except String (List Row) :=
  (run query parameters).map (fun r => r.recordset)

/-! ## CRUD statement builders and operations -/

/-- JS object spread `{...a, ...b}` restricted to lookup-relevant structure:
keys of `a` keep their position with `b`'s value overriding when present,
keys only in `b` are appended. -/
def spreadMerge (a b : JsRecord) : JsRecord :=
  (a.map (fun kv => (kv.1, (List.lookup kv.1 b).getD kv.2))) ++
    b.filter (fun kv => (List.lookup kv.1 a).isNone)

/-- The statement text and parameter record built by `insertData`:
columns and `@key` placeholders from the keys of `data`, parameters bound
from `data` itself.  (Whitespace of the template literal is normalized.) -/
def insertCall (tableName schema : String) (data : JsRecord) : String × JsRecord :=
  let columns := ", ".intercalate (data.map (fun kv => kv.1))
  let values := ", ".intercalate (data.map (fun kv => "@" ++ kv.1))
  ("INSERT INTO [" ++ schema ++ "].[" ++ tableName ++ "] (" ++ columns ++
    ") VALUES (" ++ values ++ ")", data)

/-- Source `insertData(tableName, schema = 'dbo', data)`: execute the built INSERT,
then `return 1` unconditionally (the comment in the source reads
"Return affected rows count"). -/
def DataManagementDatabase.insertData (run : Driver) (tableName : String)
    (schema : String) (data : JsRecord) : Except String Nat :=
  let c := insertCall tableName schema data
  (DataManagementDatabase.executeQuery run c.1 c.2).map (fun _ => 1)

/-- The statement text and parameter record built by `updateData`:
`[key] = @key` SET fragments from the keys of `data`, the caller's WHERE text
appended verbatim, and the parameter record `{...data, ...whereParameters}`. -/
def updateCall (tableName schema : String) (data : JsRecord)
    (whereClause : String) (whereParameters : JsRecord) : String × JsRecord :=
  let setClause := ", ".intercalate
    (data.map (fun kv => "[" ++ kv.1 ++ "] = @" ++ kv.1))
  let parameters := spreadMerge data whereParameters
  ("UPDATE [" ++ schema ++ "].[" ++ tableName ++ "] SET " ++ setClause ++
    " WHERE " ++ whereClause, parameters)

/-- Source `updateData(tableName, schema = 'dbo', data, whereClause,
whereParameters = {})`: execute the built UPDATE, then `return 1`
unconditionally. -/
def DataManagementDatabase.updateData (run : Driver) (tableName : String)
    (schema : String) (data : JsRecord) (whereClause : String)
    (whereParameters : JsRecord) : Except String Nat :=
  let c := updateCall tableName schema data whereClause whereParameters
  (DataManagementDatabase.executeQuery run c.1 c.2).map (fun _ => 1)

/-- Source `deleteData(tableName, schema = 'dbo', whereClause,
whereParameters = {})`: execute the built DELETE with `whereParameters`
bound, then `return 1` unconditionally. -/
def DataManagementDatabase.deleteData (run : Driver) (tableName : String)
    (schema : String) (whereClause : String) (whereParameters : JsRecord) :
    Except String Nat :=
  let q := "DELETE FROM [" ++ schema ++ "].[" ++ tableName ++ "] WHERE " ++
    whereClause
  (DataManagementDatabase.executeQuery run q whereParameters).map (fun _ => 1)

/-! ## Tool layer

Every tool method returns a plain JS object; absent fields are `none`.
One structure with optional fields models all the envelope shapes the tools
build (`{success, data, rowCount}`, `{success, affectedRows, message}`,
`{success, database, schema}`, ...). -/

/-- The grouped `result` object assembled by `SchemaTool.getSchema`. -/
structure SchemaGroups where
  tables : Option (List TableRow) := none
  procedures : Option (List ProcRow) := none
  triggers : Option (List TrigRow) := none
  views : Option (List TableRow) := none
deriving DecidableEq

/-- A tool result envelope; each tool sets the fields its source writes and
leaves the rest absent. -/
structure Envelope where
  success : Bool
  error : Option String := none
  data : Option (List Row) := none
  rowCount : Option Nat := none
  affectedRows : Option Nat := none
  message : Option String := none
  database : Option String := none
  table : Option String := none
  schemaGroups : Option SchemaGroups := none
  columns : Option (List ColumnRow) := none
  tables : Option (List TableRow) := none
  procedures : Option (List ProcRow) := none
  triggers : Option (List TrigRow) := none
  views : Option (List TableRow) := none
deriving DecidableEq

/-- One database object (`MasterDatabase` or `DataManagementDatabase`) as
seen by the tools and resources: the outcome of each method a caller can
await.  An `.error` value is the exception that call would throw. -/
structure DbConn where
  run : Driver
  tables : Except String (List TableRow)
  procedures : Except String (List ProcRow)
  triggers : Except String (List TrigRow)
  views : Except String (List TableRow)
  tableSchema : String → String → Except String (List ColumnRow)
  tableData : String → String → Nat → Nat → Except String (List Row)
  viewDefinition : String → String → Except String String
  procedureDefinition : String → String → Except String String
  triggerDefinition : String → Except String String

/-- A `DbConn` whose catalog methods succeed with the results that the fixed
catalog queries compute on `cat` and whose driver reports `drv`. -/
def DbConn.ofCatalog (cat : Catalog) (drv : Driver) : DbConn where
  run := drv
  tables := .ok (DataManagementDatabase.getTables cat)
  procedures := .ok (DataManagementDatabase.getStoredProcedures cat)
  triggers := .ok (DataManagementDatabase.getTriggers cat)
  views := .ok (DataManagementDatabase.getViews cat)
  tableSchema := fun t s => .ok (DataManagementDatabase.getTableSchema cat t s)
  tableData := fun _ _ _ _ => .ok []
  viewDefinition := fun _ _ => .ok ""
  procedureDefinition := fun _ _ => .ok ""
  triggerDefinition := fun _ => .ok ""

/-- Source `database === 'master' ? this.masterDb : this.dataMgmtDb`. -/
def pickDb (master dataMgmt : DbConn) : Target → DbConn
  | .master => master
  | .datamgmt => dataMgmt

/-- Arguments of the `executeQuery` tool. -/
structure QueryArgs where
  database : Target
  query : String
  parameters : Option JsRecord := none

/-- The allow-list gate in `QueryTool.execute`: the chained
`trimmedQuery.startsWith(...)` conditions on `query.trim().toLowerCase()`. -/
def queryAllowed (query : String) : Bool :=
  let trimmedQuery := jsToLower (jsTrim query)
  jsStartsWith trimmedQuery "select" || jsStartsWith trimmedQuery "insert" ||
    jsStartsWith trimmedQuery "update" || jsStartsWith trimmedQuery "delete" ||
    jsStartsWith trimmedQuery "exec" || jsStartsWith trimmedQuery "execute"

/-- The message of the error thrown when the gate rejects. -/
def gateErrorMessage : String :=
  "Only SELECT, INSERT, UPDATE, DELETE, and EXEC statements are allowed"

/-- Source `QueryTool.execute(args)`.  The second component counts how many
statements were sent to the database driver (0 when the gate rejects,
1 otherwise); the envelope is what the method returns, its catch block
included. -/
def QueryTool.execute (master dataMgmt : DbConn) (args : QueryArgs) :
    Envelope × Nat :=
  let db := pickDb master dataMgmt args.database
  if queryAllowed args.query then
    match DataManagementDatabase.executeQuery db.run args.query
        (args.parameters.getD []) with
    | .ok rows =>
        ({ success := true, data := some rows, rowCount := some rows.length }, 1)
    | .error e => ({ success := false, error := some e }, 1)
  else
    ({ success := false, error := some gateErrorMessage }, 0)

/-- Arguments of the `insertData` tool. -/
structure InsertArgs where
  database : Target
  tableName : String
  schema : Option String := none
  data : JsRecord

/-- Arguments of the `updateData` tool. -/
structure UpdateArgs where
  database : Target
  tableName : String
  schema : Option String := none
  data : JsRecord
  whereClause : String
  whereParameters : Option JsRecord := none

/-- Arguments of the `deleteData` tool. -/
structure DeleteArgs where
  database : Target
  tableName : String
  schema : Option String := none
  whereClause : String
  whereParameters : Option JsRecord := none

/-- Source `CrudTool.insert(args)`: call `db.insertData`, wrap result or caught
error in the envelope. -/
def CrudTool.insert (master dataMgmt : DbConn) (args : InsertArgs) : Envelope :=
  let schema := args.schema.getD "dbo"
  let db := pickDb master dataMgmt args.database
  match DataManagementDatabase.insertData db.run args.tableName schema
      args.data with
  | .ok n =>
      { success := true, affectedRows := some n,
        message := some ("Successfully inserted data into " ++ schema ++ "." ++
          args.tableName) }
  | .error e => { success := false, error := some e }

/-- Source `CrudTool.update(args)`: call `db.updateData`, wrap result or caught
error in the envelope. -/
def CrudTool.update (master dataMgmt : DbConn) (args : UpdateArgs) : Envelope :=
  let schema := args.schema.getD "dbo"
  let db := pickDb master dataMgmt args.database
  match DataManagementDatabase.updateData db.run args.tableName schema
      args.data args.whereClause (args.whereParameters.getD []) with
  | .ok n =>
      { success := true, affectedRows := some n,
        message := some ("Successfully updated data in " ++ schema ++ "." ++
          args.tableName) }
  | .error e => { success := false, error := some e }

/-- Source `CrudTool.delete(args)`: call `db.deleteData`, wrap result or caught
error in the envelope. -/
def CrudTool.delete (master dataMgmt : DbConn) (args : DeleteArgs) : Envelope :=
  let schema := args.schema.getD "dbo"
  let db := pickDb master dataMgmt args.database
  match DataManagementDatabase.deleteData db.run args.tableName schema
      args.whereClause (args.whereParameters.getD []) with
  | .ok n =>
      { success := true, affectedRows := some n,
        message := some ("Successfully deleted data from " ++ schema ++ "." ++
          args.tableName) }
  | .error e => { success := false, error := some e }

/-- Arguments of the `getSchema` tool (`objectType` optional,
destructured with default `'all'`). -/
structure SchemaArgs where
  database : Target
  objectType : Option String := none

/-- Arguments of the listing tools (`getTables`, `getStoredProcedures`,
`getTriggers`, `getViews`). -/
structure DbArgs where
  database : Target

/-- Arguments of the `getTableSchema` tool. -/
structure TableSchemaArgs where
  database : Target
  tableName : String
  schema : Option String := none

/-- The body of `SchemaTool.getSchema`'s try block: the four guarded awaits
assembling the `result` object; the first failing await aborts with its
error. -/
def SchemaTool.getSchemaGroups (db : DbConn) (objectType : String) :
    Except String SchemaGroups := do
  let tables ←
    if objectType == "all" || objectType == "tables" then some <$> db.tables
    else pure none
  let procedures ←
    if objectType == "all" || objectType == "procedures" then
      some <$> db.procedures
    else pure none
  let triggers ←
    if objectType == "all" || objectType == "triggers" then some <$> db.triggers
    else pure none
  let views ←
    if objectType == "all" || objectType == "views" then some <$> db.views
    else pure none
  pure { tables := tables, procedures := procedures, triggers := triggers,
         views := views }

/-- Source `SchemaTool.getSchema(args)`: assemble the groups, wrap in a success
envelope, or catch the error. -/
def SchemaTool.getSchema (master dataMgmt : DbConn) (args : SchemaArgs) :
    Envelope :=
  let objectType := args.objectType.getD "all"
  let db := pickDb master dataMgmt args.database
  match SchemaTool.getSchemaGroups db objectType with
  | .ok groups =>
      { success := true, database := some (targetName args.database),
        schemaGroups := some groups }
  | .error e => { success := false, error := some e }

/-- Source `SchemaTool.getTables(args)`. -/
def SchemaTool.getTables (master dataMgmt : DbConn) (args : DbArgs) : Envelope :=
  match (pickDb master dataMgmt args.database).tables with
  | .ok tables =>
      { success := true, database := some (targetName args.database),
        tables := some tables }
  | .error e => { success := false, error := some e }

/-- Source `SchemaTool.getTableSchema(args)`. -/
def SchemaTool.getTableSchema (master dataMgmt : DbConn)
    (args : TableSchemaArgs) : Envelope :=
  let schema := args.schema.getD "dbo"
  match (pickDb master dataMgmt args.database).tableSchema args.tableName
      schema with
  | .ok cols =>
      { success := true, database := some (targetName args.database),
        table := some (schema ++ "." ++ args.tableName), columns := some cols }
  | .error e => { success := false, error := some e }

/-- Source `SchemaTool.getStoredProcedures(args)`. -/
def SchemaTool.getStoredProcedures (master dataMgmt : DbConn) (args : DbArgs) :
    Envelope :=
  match (pickDb master dataMgmt args.database).procedures with
  | .ok procedures =>
      { success := true, database := some (targetName args.database),
        procedures := some procedures }
  | .error e => { success := false, error := some e }

/-- Source `SchemaTool.getTriggers(args)`. -/
def SchemaTool.getTriggers (master dataMgmt : DbConn) (args : DbArgs) :
    Envelope :=
  match (pickDb master dataMgmt args.database).triggers with
  | .ok triggers =>
      { success := true, database := some (targetName args.database),
        triggers := some triggers }
  | .error e => { success := false, error := some e }

/-- Source `SchemaTool.getViews(args)`. -/
def SchemaTool.getViews (master dataMgmt : DbConn) (args : DbArgs) : Envelope :=
  match (pickDb master dataMgmt args.database).views with
  | .ok views =>
      { success := true, database := some (targetName args.database),
        views := some views }
  | .error e => { success := false, error := some e }

/-! ## Resource layer -/

/-- The text payload of a read resource.  Definition reads return SQL text;
table reads return `JSON.stringify({table, schema, sampleData})`, modelled
here as the structured data it serializes. -/
inductive ResourceText where
  | sql (s : String)
  | tableJson (table : String) (schemaCols : List ColumnRow) (sample : List Row)
deriving DecidableEq

/-- One element of the `contents` array of a read-resource response. -/
structure ReadContents where
  uri : String
  mimeType : String
  text : ResourceText
deriving DecidableEq

/-- A read-resource response. -/
structure ReadResult where
  contents : List ReadContents
deriving DecidableEq

/-- One entry of a resource listing (`{uri, name, description, mimeType}`). -/
structure ResourceEntry where
  uri : String
  name : String
  description : String
  mimeType : String
deriving DecidableEq

/-- The common URI parsing of the four `get*Resource` methods:

    const parts = uri.split('/');
    const database = parts[2] as 'master' | 'datamgmt';
    const name = parts[4];

(An out-of-range JS index yields `undefined`; the URIs under study always
have at least five pieces, and we default to `""`.) -/
def parseResourceUri (uri : String) : String × String :=
  let parts := jsSplitSlash uri
  (parts.getD 2 "", parts.getD 4 "")

/-- The db selection in the resource getters:
`database === 'master' ? this.masterDb : this.dataMgmtDb`, applied to the
string extracted from the URI. -/
def pickDbByString (master dataMgmt : DbConn) (database : String) : DbConn :=
  if database == "master" then master else dataMgmt

/-- Source `TablesResource.listTables(database)`: one entry per `getTables()` row. -/
def TablesResource.listTables (master dataMgmt : DbConn) (database : Target) :
    Except String (List ResourceEntry) :=
  (pickDb master dataMgmt database).tables.map (fun tables =>
    tables.map (fun table =>
      { uri := "mcp://ssms/" ++ targetName database ++ "/tables/" ++
          table.table_schema ++ "." ++ table.table_name,
        name := table.table_schema ++ "." ++ table.table_name,
        description := "Table: " ++ table.table_schema ++ "." ++
          table.table_name,
        mimeType := "application/json" }))

/-- Source `TablesResource.getTableResource(uri)`: parse, pick the db, fetch schema
(default schema `'dbo'`) and ten sample rows, return the JSON payload. -/
def TablesResource.getTableResource (master dataMgmt : DbConn) (uri : String) :
    Except String ReadResult := do
  let parsed := parseResourceUri uri
  let db := pickDbByString master dataMgmt parsed.1
  let schemaCols ← db.tableSchema parsed.2 "dbo"
  let data ← db.tableData parsed.2 "dbo" 10 0
  pure { contents := [{ uri := uri, mimeType := "application/json",
                        text := .tableJson parsed.2 schemaCols data }] }

/-- Source `ProceduresResource.listProcedures(database)`. -/
def ProceduresResource.listProcedures (master dataMgmt : DbConn)
    (database : Target) : Except String (List ResourceEntry) :=
  (pickDb master dataMgmt database).procedures.map (fun procs =>
    procs.map (fun proc =>
      { uri := "mcp://ssms/" ++ targetName database ++ "/procedures/" ++
          proc.routine_schema ++ "." ++ proc.routine_name,
        name := proc.routine_schema ++ "." ++ proc.routine_name,
        description := "Stored Procedure: " ++ proc.routine_schema ++ "." ++
          proc.routine_name,
        mimeType := "text/sql" }))

/-- Source `ProceduresResource.getProcedureResource(uri)`: parse, pick the db,
fetch the definition (default schema `'dbo'`), return SQL text. -/
def ProceduresResource.getProcedureResource (master dataMgmt : DbConn)
    (uri : String) : Except String ReadResult := do
  let parsed := parseResourceUri uri
  let db := pickDbByString master dataMgmt parsed.1
  let definition ← db.procedureDefinition parsed.2 "dbo"
  pure { contents := [{ uri := uri, mimeType := "text/sql",
                        text := .sql definition }] }

/-- Source `TriggersResource.listTriggers(database)`: one entry per `getTriggers()`
row; the URI carries the bare trigger name. -/
def TriggersResource.listTriggers (master dataMgmt : DbConn)
    (database : Target) : Except String (List ResourceEntry) :=
  (pickDb master dataMgmt database).triggers.map (fun triggers =>
    triggers.map (fun trigger =>
      { uri := "mcp://ssms/" ++ targetName database ++ "/triggers/" ++
          trigger.trigger_name,
        name := trigger.trigger_name,
        description := "Trigger: " ++ trigger.trigger_name ++ " on table " ++
          trigger.table_name,
        mimeType := "text/sql" }))

/-- Source `TriggersResource.getTriggerResource(uri)`. -/
def TriggersResource.getTriggerResource (master dataMgmt : DbConn)
    (uri : String) : Except String ReadResult := do
  let parsed := parseResourceUri uri
  let db := pickDbByString master dataMgmt parsed.1
  let definition ← db.triggerDefinition parsed.2
  pure { contents := [{ uri := uri, mimeType := "text/sql",
                        text := .sql definition }] }

/-- Source `ViewsResource.listViews(database)`: one entry per `getViews()` row. -/
def ViewsResource.listViews (master dataMgmt : DbConn) (database : Target) :
    Except String (List ResourceEntry) :=
  (pickDb master dataMgmt database).views.map (fun views =>
    views.map (fun view =>
      { uri := "mcp://ssms/" ++ targetName database ++ "/views/" ++
          view.table_schema ++ "." ++ view.table_name,
        name := view.table_schema ++ "." ++ view.table_name,
        description := "View: " ++ view.table_schema ++ "." ++ view.table_name,
        mimeType := "text/sql" }))

/-- Source `ViewsResource.getViewResource(uri)`: parse, pick the db, fetch the
definition (default schema `'dbo'`), return SQL text. -/
def ViewsResource.getViewResource (master dataMgmt : DbConn) (uri : String) :
    Except String ReadResult := do
  let parsed := parseResourceUri uri
  let db := pickDbByString master dataMgmt parsed.1
  let definition ← db.viewDefinition parsed.2 "dbo"
  pure { contents := [{ uri := uri, mimeType := "text/sql",
                        text := .sql definition }] }

/-! ## Protocol front-end (`SSMSServer.setupHandlers`) -/

/-- An incoming tool-call request: the `switch (name)` dispatch key with the
arguments the matching case casts to, or any unmatched name. -/
inductive ToolCall where
  | executeQuery (args : QueryArgs)
  | insertData (args : InsertArgs)
  | updateData (args : UpdateArgs)
  | deleteData (args : DeleteArgs)
  | getSchema (args : SchemaArgs)
  | getTables (args : DbArgs)
  | getTableSchema (args : TableSchemaArgs)
  | getStoredProcedures (args : DbArgs)
  | getTriggers (args : DbArgs)
  | getViews (args : DbArgs)
  | unknown (name : String)

/-- The body of the call-tool handler's try block: each case returns its
tool's envelope; the default case throws `Unknown tool: <name>`. -/
def SSMSServer.callToolRaw (master dataMgmt : DbConn) :
    ToolCall → Except String Envelope
  | .executeQuery args => .ok (QueryTool.execute master dataMgmt args).1
  | .insertData args => .ok (CrudTool.insert master dataMgmt args)
  | .updateData args => .ok (CrudTool.update master dataMgmt args)
  | .deleteData args => .ok (CrudTool.delete master dataMgmt args)
  | .getSchema args => .ok (SchemaTool.getSchema master dataMgmt args)
  | .getTables args => .ok (SchemaTool.getTables master dataMgmt args)
  | .getTableSchema args => .ok (SchemaTool.getTableSchema master dataMgmt args)
  | .getStoredProcedures args =>
      .ok (SchemaTool.getStoredProcedures master dataMgmt args)
  | .getTriggers args => .ok (SchemaTool.getTriggers master dataMgmt args)
  | .getViews args => .ok (SchemaTool.getViews master dataMgmt args)
  | .unknown name => .error ("Unknown tool: " ++ name)

/-- The call-tool handler: the try block wrapped in the catch that converts
any thrown error to `{success: false, error}`. -/
def SSMSServer.callTool (master dataMgmt : DbConn) (call : ToolCall) :
    Except String Envelope :=
  match SSMSServer.callToolRaw master dataMgmt call with
  | .ok envelope => .ok envelope
  | .error msg => .ok { success := false, error := some msg }

/-- The read-resource handler: dispatch on `uri.includes(...)`; the final
branch throws `Unknown resource type: <uri>`.  This handler has no catch:
an `.error` outcome is an exception leaving the front-end. -/
def SSMSServer.readResource (master dataMgmt : DbConn) (uri : String) :
    Except String ReadResult :=
  if jsIncludes uri "/tables/" then
    TablesResource.getTableResource master dataMgmt uri
  else if jsIncludes uri "/procedures/" then
    ProceduresResource.getProcedureResource master dataMgmt uri
  else if jsIncludes uri "/triggers/" then
    TriggersResource.getTriggerResource master dataMgmt uri
  else if jsIncludes uri "/views/" then
    ViewsResource.getViewResource master dataMgmt uri
  else
    .error ("Unknown resource type: " ++ uri)

/-! ## Concrete oracles used to instantiate theorems -/

/-- A driver whose every statement succeeds with an empty recordset. -/
def okDriver : Driver := fun _ _ => .ok { recordset := [], rowsAffected := 0 }

/-- A database connection whose every call succeeds trivially. -/
def dbConnOk : DbConn where
  run := okDriver
  tables := .ok []
  procedures := .ok []
  triggers := .ok []
  views := .ok []
  tableSchema := fun _ _ => .ok []
  tableData := fun _ _ _ _ => .ok []
  viewDefinition := fun _ _ => .ok ""
  procedureDefinition := fun _ _ => .ok ""
  triggerDefinition := fun _ => .ok ""

/-- A database connection whose every call throws `boom`. -/
def dbConnErr : DbConn where
  run := fun _ _ => .error "boom"
  tables := .error "boom"
  procedures := .error "boom"
  triggers := .error "boom"
  views := .error "boom"
  tableSchema := fun _ _ => .error "boom"
  tableData := fun _ _ _ _ => .error "boom"
  viewDefinition := fun _ _ => .error "boom"
  procedureDefinition := fun _ _ => .error "boom"
  triggerDefinition := fun _ => .error "boom"

/-- A master connection whose view-definition lookups report which
connection served which object name. -/
def probeMasterConn : DbConn :=
  { dbConnOk with viewDefinition := fun name _ => .ok ("master:" ++ name) }

/-- The data-management twin of `probeMasterConn`. -/
def probeDataConn : DbConn :=
  { dbConnOk with viewDefinition := fun name _ => .ok ("datamgmt:" ++ name) }

/-! ## Claim C1: the SQL keyword allow-list gate -/

/-- The keyword list of the gate, lowercase as the code compares it. -/
def gateKeywords : List String :=
  ["select", "insert", "update", "delete", "exec", "execute"]

/-- C1: if the statement text, after trimming and lowercasing, starts with
none of the six keywords, `executeQuery` returns a failure envelope carrying
the validation message and sends nothing to the database driver; if it
starts with one of them, the statement is sent to the driver (exactly one
driver call). -/
theorem c1_execute_query_gate (master dataMgmt : DbConn) (args : QueryArgs) :
    ((∀ kw ∈ gateKeywords,
        jsStartsWith (jsToLower (jsTrim args.query)) kw = false) →
      (QueryTool.execute master dataMgmt args).1.success = false ∧
        (QueryTool.execute master dataMgmt args).1.error =
          some gateErrorMessage ∧
        (QueryTool.execute master dataMgmt args).2 = 0) ∧
    ((∃ kw ∈ gateKeywords,
        jsStartsWith (jsToLower (jsTrim args.query)) kw = true) →
      (QueryTool.execute master dataMgmt args).2 = 1) := by
  constructor
  · intro H
    have h1 := H "select" (by simp [gateKeywords])
    have h2 := H "insert" (by simp [gateKeywords])
    have h3 := H "update" (by simp [gateKeywords])
    have h4 := H "delete" (by simp [gateKeywords])
    have h5 := H "exec" (by simp [gateKeywords])
    have h6 := H "execute" (by simp [gateKeywords])
    have hq : queryAllowed args.query = false := by
      simp [queryAllowed, h1, h2, h3, h4, h5, h6]
    simp [QueryTool.execute, hq]
  · intro ⟨kw, hmem, hkw⟩
    have hq : queryAllowed args.query = true := by
      simp only [gateKeywords, List.mem_cons, List.not_mem_nil, or_false] at hmem
      rcases hmem with rfl | rfl | rfl | rfl | rfl | rfl <;>
        simp [queryAllowed, hkw]
    cases hE : DataManagementDatabase.executeQuery
        (pickDb master dataMgmt args.database).run args.query
        (args.parameters.getD []) with
    | ok rows => simp [QueryTool.execute, hq, hE]
    | error e => simp [QueryTool.execute, hq, hE]

/-- Witness for C1 at concrete inputs: a `DROP TABLE` statement is rejected
with no driver call; a leading-whitespace `SELECT` is admitted. -/
theorem c1_execute_query_gate_witness :
    (QueryTool.execute dbConnOk dbConnOk
        { database := .master, query := "DROP TABLE Clients" }).1.success =
      false ∧
    (QueryTool.execute dbConnOk dbConnOk
        { database := .master, query := "DROP TABLE Clients" }).2 = 0 ∧
    (QueryTool.execute dbConnOk dbConnOk
        { database := .datamgmt, query := "  SELECT * FROM File_Detail" }).2 =
      1 := by
  refine ⟨?_, ?_, ?_⟩
  · exact ((c1_execute_query_gate dbConnOk dbConnOk
      { database := .master, query := "DROP TABLE Clients" }).1 (by decide)).1
  · exact ((c1_execute_query_gate dbConnOk dbConnOk
      { database := .master, query := "DROP TABLE Clients" }).1 (by decide)).2.2
  · exact (c1_execute_query_gate dbConnOk dbConnOk
      { database := .datamgmt, query := "  SELECT * FROM File_Detail" }).2
      ⟨"select", by decide, by decide⟩

/-! ## Claim C2: the uniform error envelope at the front-end -/

/-- C2 (amended): every tool-call invocation resolves to an envelope — the
call-tool handler never lets an exception escape, and an unknown tool name
is caught and converted to `{success: false, error}`.  (Resource reads are
not covered: see the counterexample.) -/
theorem c2_tool_calls_never_raise (master dataMgmt : DbConn) (call : ToolCall)
    (name : String) :
    (SSMSServer.callTool master dataMgmt call).isOk = true ∧
    SSMSServer.callTool master dataMgmt (.unknown name) =
      .ok { success := false, error := some ("Unknown tool: " ++ name) } := by
  constructor
  · cases call <;> rfl
  · rfl

/-- Counterexample to C2 as stated: the read-resource handler has no catch.
A read with an unrecognized URI throws `Unknown resource type` past the
front-end, and a component failure (here: every database call throwing
`boom`) during a view read also propagates as an exception rather than
being converted to an envelope. -/
theorem c2_read_resource_raises :
    SSMSServer.readResource dbConnOk dbConnOk "mcp://ssms/master/unknown/x" =
      .error "Unknown resource type: mcp://ssms/master/unknown/x" ∧
    SSMSServer.readResource dbConnOk dbConnErr
        "mcp://ssms/master/views/dbo.ClientSummary" =
      .error "boom" := by
  constructor
  · rfl
  · rfl

/-! ## Claim C3: affected-row count is always 1 -/

/-- Mapping a constant 1 over an `Except` can only succeed with 1. -/
lemma map_const_one_ok (e : Except String (List Row)) (n : Nat)
    (h : e.map (fun _ => (1 : Nat)) = .ok n) : n = 1 := by
  cases e with
  | ok rows => simp [Except.map] at h; omega
  | error msg => simp [Except.map] at h

/-- C3: whenever `insertData`, `updateData` or `deleteData` succeeds, the
returned affected-row count is exactly 1; in particular a driver outcome
reporting any `rowsAffected` whatsoever (`m`, e.g. 0 for a WHERE matching
nothing) still yields 1. -/
theorem c3_affected_rows_always_one (run : Driver)
    (tableName schema whereClause : String) (data whereParameters : JsRecord)
    (n : Nat) (rows : List Row) (m : Nat) :
    ((DataManagementDatabase.insertData run tableName schema data = .ok n →
        n = 1) ∧
      (DataManagementDatabase.updateData run tableName schema data whereClause
          whereParameters = .ok n → n = 1) ∧
      (DataManagementDatabase.deleteData run tableName schema whereClause
          whereParameters = .ok n → n = 1)) ∧
    (DataManagementDatabase.insertData
        (fun _ _ => .ok { recordset := rows, rowsAffected := m }) tableName
        schema data = .ok 1 ∧
      DataManagementDatabase.updateData
        (fun _ _ => .ok { recordset := rows, rowsAffected := m }) tableName
        schema data whereClause whereParameters = .ok 1 ∧
      DataManagementDatabase.deleteData
        (fun _ _ => .ok { recordset := rows, rowsAffected := m }) tableName
        schema whereClause whereParameters = .ok 1) := by
  refine ⟨⟨?_, ?_, ?_⟩, rfl, rfl, rfl⟩
  · exact fun h => map_const_one_ok _ n h
  · exact fun h => map_const_one_ok _ n h
  · exact fun h => map_const_one_ok _ n h

/-- Witness for C3 at a concrete call: the driver reports 5 rows affected,
the operations report 1. -/
theorem c3_affected_rows_always_one_witness :
    (1 : Nat) = 1 ∧ (1 : Nat) = 1 ∧ (1 : Nat) = 1 := by
  have h := c3_affected_rows_always_one
    (fun _ _ => .ok { recordset := [], rowsAffected := 5 }) "File_Detail"
    "dbo" "Id = @Id" [("FileName", JsValue.str "a.pdf")]
    [("Id", JsValue.num 1)] 1 [] 5
  exact ⟨h.1.1 (by rfl), h.1.2.1 (by rfl), h.1.2.2 (by rfl)⟩

/-! ## Claim C4: resource URI list-then-read round trip -/

/-- A catalog holding exactly the view dbo.ClientSummary. -/
def c4ViewCat : Catalog :=
  { tables := [],
    views := [{ table_schema := "dbo", table_name := "ClientSummary" }],
    routines := [], triggers := [], columns := [] }

/-- C4: the listing for target master emits the documented URI
`mcp://ssms/master/views/dbo.ClientSummary`, but the reader's position-based
parse (`parts[2]`, `parts[4]`) extracts `("ssms", "views")` from it: reading
the listed URI consults the data-management connection (the extracted
target `"ssms"` is not `"master"`) for an object literally named `"views"`,
not target master's `dbo.ClientSummary`.  The probe connections record
which connection served which name. -/
theorem c4_list_read_round_trip_bug :
    ViewsResource.listViews (DbConn.ofCatalog c4ViewCat okDriver) dbConnOk
        .master =
      .ok [{ uri := "mcp://ssms/master/views/dbo.ClientSummary",
             name := "dbo.ClientSummary",
             description := "View: dbo.ClientSummary",
             mimeType := "text/sql" }] ∧
    parseResourceUri "mcp://ssms/master/views/dbo.ClientSummary" =
      ("ssms", "views") ∧
    ViewsResource.getViewResource probeMasterConn probeDataConn
        "mcp://ssms/master/views/dbo.ClientSummary" =
      .ok { contents := [{ uri := "mcp://ssms/master/views/dbo.ClientSummary",
                           mimeType := "text/sql",
                           text := .sql "datamgmt:views" }] } ∧
    ("ssms", "views") ≠ ("master", "dbo.ClientSummary") := by
  exact ⟨rfl, rfl, rfl, by decide⟩

/-! ## Claim C5: connection lifecycle -/

/-- Counterexample to C5 as stated: after a failed `connect()` (the awaited
`pool.connect()` rejected), the failed handle (id 1, never connected)
remains stored, and a subsequent `connect()` keeps it instead of creating
the fresh handle (id 2) the claim requires. -/
theorem c5_failed_connect_poisons_pool :
    (DataManagementDatabase.connect 2 true
        (DataManagementDatabase.connect 1 false { pool := none }).1).1.pool =
      some { id := 1, connected := false } ∧
    (DataManagementDatabase.connect 1 false { pool := none }).2 =
      some "connect failed" ∧
    some ({ id := 1, connected := false } : Pool) ≠
      some ({ id := 2, connected := true } : Pool) := by
  exact ⟨rfl, rfl, by decide⟩

/-- C5 (amended): `connect()` with a stored pool handle reuses it and makes
no new connection attempt; `disconnect()` when already disconnected is a
no-op; but after a connection failure the failed handle remains stored and
every subsequent `connect()` returns immediately, reusing the
never-connected handle rather than creating a fresh one. -/
theorem c5_connection_lifecycle (s : ConnState) (p : Pool)
    (freshId freshId2 : Nat) (ok2 : Bool) :
    (s.pool = some p →
      DataManagementDatabase.connect freshId ok2 s = (s, none)) ∧
    (s.pool = none → DataManagementDatabase.disconnect s = (s, none)) ∧
    (DataManagementDatabase.connect freshId2 ok2
        (DataManagementDatabase.connect freshId false { pool := none }).1 =
      ((DataManagementDatabase.connect freshId false { pool := none }).1,
        none) ∧
      (DataManagementDatabase.connect freshId false
          { pool := none }).1.pool =
        some { id := freshId, connected := false }) := by
  refine ⟨?_, ?_, rfl, rfl⟩
  · intro h
    simp [DataManagementDatabase.connect, h]
  · intro h
    simp [DataManagementDatabase.disconnect, h]

/-- Witness for C5 (amended) at concrete states: reuse of a live pool and
the no-op disconnect. -/
theorem c5_connection_lifecycle_witness :
    DataManagementDatabase.connect 7 true
        { pool := some { id := 3, connected := true } } =
      ({ pool := some { id := 3, connected := true } }, none) ∧
    DataManagementDatabase.disconnect { pool := none } =
      ({ pool := none }, none) := by
  constructor
  · exact (c5_connection_lifecycle
      { pool := some { id := 3, connected := true } }
      { id := 3, connected := true } 7 8 true).1 rfl
  · exact (c5_connection_lifecycle { pool := none }
      { id := 0, connected := false } 7 8 true).2.1 rfl

/-! ## Claim C6: listing order and empty catalogs -/

/-- A catalog with two enabled triggers whose name order and (schema, name)
order disagree. -/
def c6TrigCat : Catalog :=
  { tables := [], views := [], routines := [], columns := [],
    triggers :=
      [{ name := "B", parent_table := "t", schema := "A",
         is_disabled := false },
       { name := "A", parent_table := "t", schema := "B",
         is_disabled := false }] }

/-- Counterexample to C6 as stated: `getTriggers` orders by trigger name
alone (`ORDER BY t.name`), so on `c6TrigCat` it returns the trigger of
schema "B" before the trigger of schema "A" — not ascending by the pair
(schema, name). -/
theorem c6_triggers_not_pair_sorted :
    ¬ List.Sorted
        (pairKeyLe (fun r : TrigRow => (r.trigger_schema, r.trigger_name)))
        (DataManagementDatabase.getTriggers c6TrigCat) := by
  decide

/-- C6 (amended): `getTables`, `getViews` and `getStoredProcedures` return
rows sorted ascending by the pair (schema, name); `getTriggers` returns rows
sorted ascending by trigger name alone; and each returns an empty sequence
(not an error) when the catalog holds no matching objects. -/
theorem c6_listing_order (cat : Catalog) :
    List.Sorted (pairKeyLe (fun r : TableRow => (r.table_schema, r.table_name)))
      (DataManagementDatabase.getTables cat) ∧
    List.Sorted (pairKeyLe (fun r : TableRow => (r.table_schema, r.table_name)))
      (DataManagementDatabase.getViews cat) ∧
    List.Sorted
      (pairKeyLe (fun r : ProcRow => (r.routine_schema, r.routine_name)))
      (DataManagementDatabase.getStoredProcedures cat) ∧
    List.Sorted (strKeyLe (fun r : TrigRow => r.trigger_name))
      (DataManagementDatabase.getTriggers cat) ∧
    (cat.tables.filter (fun t => t.isBaseTable) = [] →
      DataManagementDatabase.getTables cat = []) ∧
    (cat.views = [] → DataManagementDatabase.getViews cat = []) ∧
    (cat.routines.filter (fun r => r.isProcedure) = [] →
      DataManagementDatabase.getStoredProcedures cat = []) ∧
    (cat.triggers.filter (fun t => !t.is_disabled) = [] →
      DataManagementDatabase.getTriggers cat = []) := by
  refine ⟨List.sorted_insertionSort _ _, List.sorted_insertionSort _ _,
    List.sorted_insertionSort _ _, List.sorted_insertionSort _ _,
    ?_, ?_, ?_, ?_⟩
  · intro h
    simp [DataManagementDatabase.getTables, h]
  · intro h
    simp [DataManagementDatabase.getViews, h]
  · intro h
    simp [DataManagementDatabase.getStoredProcedures, h]
  · intro h
    simp [DataManagementDatabase.getTriggers, h]

/-- Witness for C6 at the empty catalog: all four listings are empty, not
errors. -/
theorem c6_listing_order_witness :
    DataManagementDatabase.getTables
        { tables := [], views := [], routines := [], triggers := [],
          columns := [] } = [] ∧
    DataManagementDatabase.getViews
        { tables := [], views := [], routines := [], triggers := [],
          columns := [] } = [] ∧
    DataManagementDatabase.getStoredProcedures
        { tables := [], views := [], routines := [], triggers := [],
          columns := [] } = [] ∧
    DataManagementDatabase.getTriggers
        { tables := [], views := [], routines := [], triggers := [],
          columns := [] } = [] := by
  have h := c6_listing_order
    { tables := [], views := [], routines := [], triggers := [],
      columns := [] }
  exact ⟨h.2.2.2.2.1 rfl, h.2.2.2.2.2.1 rfl, h.2.2.2.2.2.2.1 rfl,
    h.2.2.2.2.2.2.2 rfl⟩

/-! ## Claim C7: getTableSchema ordering and missing tables -/

/-- C7: the rows `getTableSchema` selects are sorted ascending by ordinal
position; the returned descriptors are exactly one per matching catalog
column (a permutation of their projections, hence equal in count); and when
no column matches (the table does not exist) the result is the empty list,
not an exception. -/
theorem c7_table_schema_ordered (cat : Catalog) (tableName schema : String) :
    List.Sorted (natKeyLe (fun c : CatColumn => c.ordinal_position))
      (tableSchemaRows cat tableName schema) ∧
    (DataManagementDatabase.getTableSchema cat tableName schema).Perm
      ((cat.columns.filter
          (fun c => c.table_name == tableName && c.table_schema == schema)).map
        (fun c => ColumnRow.mk c.column_name c.data_type c.is_nullable
          c.column_default c.character_maximum_length)) ∧
    (DataManagementDatabase.getTableSchema cat tableName schema).length =
      (cat.columns.filter
        (fun c => c.table_name == tableName &&
          c.table_schema == schema)).length ∧
    (cat.columns.filter
        (fun c => c.table_name == tableName && c.table_schema == schema) =
        [] →
      DataManagementDatabase.getTableSchema cat tableName schema = []) := by
  have hperm :
      (DataManagementDatabase.getTableSchema cat tableName schema).Perm
        ((cat.columns.filter
            (fun c => c.table_name == tableName &&
              c.table_schema == schema)).map
          (fun c => ColumnRow.mk c.column_name c.data_type c.is_nullable
            c.column_default c.character_maximum_length)) :=
    (List.perm_insertionSort _ _).map _
  refine ⟨List.sorted_insertionSort _ _, hperm, ?_, ?_⟩
  · simpa using hperm.length_eq
  · intro h
    simp [DataManagementDatabase.getTableSchema, tableSchemaRows, h]

/-- Witness for C7 at a concrete catalog where the requested table does not
exist: the result is empty rather than an exception. -/
theorem c7_table_schema_ordered_witness :
    DataManagementDatabase.getTableSchema
        { tables := [], views := [], routines := [], triggers := [],
          columns := [{ table_name := "Other", table_schema := "dbo",
                        column_name := "Id", data_type := "int",
                        is_nullable := "NO", column_default := none,
                        character_maximum_length := none,
                        ordinal_position := 1 }] }
        "Missing" "dbo" = [] := by
  exact (c7_table_schema_ordered
    { tables := [], views := [], routines := [], triggers := [],
      columns := [{ table_name := "Other", table_schema := "dbo",
                    column_name := "Id", data_type := "int",
                    is_nullable := "NO", column_default := none,
                    character_maximum_length := none,
                    ordinal_position := 1 }] }
    "Missing" "dbo").2.2.2 (by decide)

/-! ## Claim C8: update with colliding parameter names -/

/-- Looking up a key that the overridden-map part of a spread resolves:
the value is `b`'s when `b` has the key, else the original. -/
lemma lookup_map_override (b : JsRecord) (k : String) :
    ∀ (l : JsRecord) (v : JsValue), List.lookup k l = some v →
      ∀ (t : JsRecord),
        List.lookup k
            (l.map (fun kv => (kv.1, (List.lookup kv.1 b).getD kv.2)) ++ t) =
          some ((List.lookup k b).getD v) := by
  intro l
  induction l with
  | nil => intro v hv; simp at hv
  | cons p rest ih =>
      obtain ⟨k1, v1⟩ := p
      intro v hv t
      cases hbeq : k == k1 with
      | true =>
          simp only [List.lookup, hbeq, Option.some.injEq] at hv
          have hk : k = k1 := eq_of_beq hbeq
          subst hk
          subst hv
          simp [List.lookup]
      | false =>
          simp only [List.lookup, hbeq] at hv
          simpa [List.lookup, hbeq] using ih v hv t

/-- When a key occurs in both records, the spread-merged record binds it to
the second record's value. -/
lemma lookup_spreadMerge_both (a b : JsRecord) (k : String) (v w : JsValue)
    (ha : List.lookup k a = some v) (hb : List.lookup k b = some w) :
    List.lookup k (spreadMerge a b) = some w := by
  have h := lookup_map_override b k a v ha
    (b.filter fun kv => (List.lookup kv.1 a).isNone)
  simpa [spreadMerge, hb] using h

/-- A successful lookup exhibits an entry with the looked-up key. -/
lemma exists_key_of_lookup (l : JsRecord) (k : String) (v : JsValue)
    (h : List.lookup k l = some v) : ∃ kv ∈ l, kv.1 = k := by
  induction l with
  | nil => simp at h
  | cons p rest ih =>
      obtain ⟨k1, v1⟩ := p
      cases hbeq : k == k1 with
      | true => exact ⟨(k1, v1), List.mem_cons_self _ _, (eq_of_beq hbeq).symm⟩
      | false =>
          simp only [List.lookup, hbeq] at h
          obtain ⟨kv, hm, hk⟩ := ih h
          exact ⟨kv, List.mem_cons_of_mem _ hm, hk⟩

/-- C8: when a parameter name `k` occurs both as a column key of `data` and
as a key of `whereParameters`, `updateData` is not rejected: the parameter
record it binds carries `whereParameters`' value for `k` (silently
overriding the row value), the SET clause still contains the shared
placeholder fragment for `k`, and the operation succeeds. -/
theorem c8_update_param_collision (tableName schema whereClause : String)
    (data whereParameters : JsRecord) (k : String) (v w : JsValue)
    (rows : List Row) (m : Nat)
    (hd : List.lookup k data = some v)
    (hw : List.lookup k whereParameters = some w) :
    List.lookup k
        (updateCall tableName schema data whereClause whereParameters).2 =
      some w ∧
    ("[" ++ k ++ "] = @" ++ k) ∈
      data.map (fun kv => "[" ++ kv.1 ++ "] = @" ++ kv.1) ∧
    DataManagementDatabase.updateData
        (fun _ _ => .ok { recordset := rows, rowsAffected := m }) tableName
        schema data whereClause whereParameters = .ok 1 := by
  refine ⟨?_, ?_, rfl⟩
  · exact lookup_spreadMerge_both data whereParameters k v w hd hw
  · obtain ⟨kv, hm, hk⟩ := exists_key_of_lookup data k v hd
    exact List.mem_map.mpr ⟨kv, hm, by rw [hk]⟩

/-- Witness for C8 at a concrete update where `Status` is both a SET column
and a WHERE parameter: the bound value is the WHERE one. -/
theorem c8_update_param_collision_witness :
    List.lookup "Status"
        (updateCall "File_Detail" "dbo" [("Status", JsValue.str "new")]
          "Status = @Status" [("Status", JsValue.str "old")]).2 =
      some (JsValue.str "old") ∧
    ("[" ++ "Status" ++ "] = @" ++ "Status") ∈
      [("Status", JsValue.str "new")].map
        (fun kv => "[" ++ kv.1 ++ "] = @" ++ kv.1) ∧
    DataManagementDatabase.updateData
        (fun _ _ => .ok { recordset := [], rowsAffected := 0 }) "File_Detail"
        "dbo" [("Status", JsValue.str "new")] "Status = @Status"
        [("Status", JsValue.str "old")] = .ok 1 := by
  exact c8_update_param_collision "File_Detail" "dbo" "Status = @Status"
    [("Status", JsValue.str "new")] [("Status", JsValue.str "old")] "Status"
    (JsValue.str "new") (JsValue.str "old") [] 0 (by decide) (by decide)

/-! ## Claim C9: getSchema with an objectType outside the enumeration -/

/-- C9: for any objectType string outside the declared enumeration, none of
the four guarded catalog calls fires, and `getSchema` returns a success
envelope whose schema object is empty — not a validation error. -/
theorem c9_get_schema_unknown_object_type (master dataMgmt : DbConn)
    (database : Target) (s : String)
    (h : s ∉ (["tables", "procedures", "triggers", "views", "all"] :
      List String)) :
    SchemaTool.getSchema master dataMgmt
        { database := database, objectType := some s } =
      { success := true, database := some (targetName database),
        schemaGroups := some {} } := by
  simp only [List.mem_cons, List.not_mem_nil, or_false, not_or] at h
  obtain ⟨h1, h2, h3, h4, h5⟩ := h
  have b1 : (s == "tables") = false := beq_eq_false_iff_ne.mpr h1
  have b2 : (s == "procedures") = false := beq_eq_false_iff_ne.mpr h2
  have b3 : (s == "triggers") = false := beq_eq_false_iff_ne.mpr h3
  have b4 : (s == "views") = false := beq_eq_false_iff_ne.mpr h4
  have b5 : (s == "all") = false := beq_eq_false_iff_ne.mpr h5
  simp [SchemaTool.getSchema, SchemaTool.getSchemaGroups, b1, b2, b3, b4, b5,
    pure, Except.pure, bind, Except.bind]

/-- Witness for C9 at the concrete objectType `columns` (not in the
enumeration): success with an empty schema object. -/
theorem c9_get_schema_unknown_object_type_witness :
    SchemaTool.getSchema dbConnOk dbConnOk
        { database := Target.master, objectType := some "columns" } =
      { success := true, database := some "master",
        schemaGroups := some {} } := by
  exact c9_get_schema_unknown_object_type dbConnOk dbConnOk Target.master
    "columns" (by decide)

/-! ## Claim C10: only enabled triggers are listed -/

/-- C10: a row appears in `getTriggers` exactly when it is the projection of
an enabled catalog trigger (`is_disabled = 0`); and every entry of the
trigger resource listing built over a catalog comes from an enabled
trigger.  A disabled trigger therefore never contributes a row or a
resource entry. -/
theorem c10_triggers_enabled_only (cat : Catalog) (d : TrigRow) (drv : Driver)
    (entries : List ResourceEntry) (r : ResourceEntry) :
    (d ∈ DataManagementDatabase.getTriggers cat ↔
      ∃ t ∈ cat.triggers, t.is_disabled = false ∧
        d = { trigger_name := t.name, table_name := t.parent_table,
              trigger_schema := t.schema }) ∧
    (TriggersResource.listTriggers (DbConn.ofCatalog cat drv) dbConnOk
        .master = .ok entries →
      r ∈ entries →
      ∃ t ∈ cat.triggers, t.is_disabled = false ∧ r.name = t.name) := by
  have hmem : ∀ e : TrigRow,
      e ∈ DataManagementDatabase.getTriggers cat ↔
        ∃ t ∈ cat.triggers, t.is_disabled = false ∧
          e = { trigger_name := t.name, table_name := t.parent_table,
                trigger_schema := t.schema } := by
    intro e
    unfold DataManagementDatabase.getTriggers
    rw [(List.perm_insertionSort _ _).mem_iff]
    simp only [List.mem_map, List.mem_filter, Bool.not_eq_true']
    constructor
    · rintro ⟨t, ⟨ht, hd⟩, rfl⟩
      exact ⟨t, ht, hd, rfl⟩
    · rintro ⟨t, ht, hd, rfl⟩
      exact ⟨t, ⟨ht, hd⟩, rfl⟩
  refine ⟨hmem d, ?_⟩
  intro hE hr
  have hentries :
      entries = (DataManagementDatabase.getTriggers cat).map
        (fun trigger =>
          { uri := "mcp://ssms/" ++ targetName .master ++ "/triggers/" ++
              trigger.trigger_name,
            name := trigger.trigger_name,
            description := "Trigger: " ++ trigger.trigger_name ++
              " on table " ++ trigger.table_name,
            mimeType := "text/sql" }) := by
    simpa [TriggersResource.listTriggers, DbConn.ofCatalog, pickDb,
      Except.map] using hE.symm
  subst hentries
  obtain ⟨tr, htr, rfl⟩ := List.mem_map.mp hr
  obtain ⟨t, ht, hd, rfl⟩ := (hmem tr).mp htr
  exact ⟨t, ht, hd, rfl⟩

/-- Witness for C10: a catalog with one enabled and one disabled trigger;
the enabled one's row is in the result (and the necessarily enabled source
of a concrete listing entry is exhibited). -/
theorem c10_triggers_enabled_only_witness :
    (∃ t ∈ ([{ name := "trgA", parent_table := "tbl", schema := "dbo",
               is_disabled := false },
             { name := "trgB", parent_table := "tbl", schema := "dbo",
               is_disabled := true }] : List CatTrigger),
      t.is_disabled = false ∧
        ({ trigger_name := "trgA", table_name := "tbl",
           trigger_schema := "dbo" } : TrigRow) =
          { trigger_name := t.name, table_name := t.parent_table,
            trigger_schema := t.schema }) ∧
    (∃ t ∈ ([{ name := "trgA", parent_table := "tbl", schema := "dbo",
               is_disabled := false },
             { name := "trgB", parent_table := "tbl", schema := "dbo",
               is_disabled := true }] : List CatTrigger),
      t.is_disabled = false ∧
        ({ uri := "mcp://ssms/master/triggers/trgA", name := "trgA",
           description := "Trigger: trgA on table tbl",
           mimeType := "text/sql" } : ResourceEntry).name = t.name) := by
  have h := c10_triggers_enabled_only
    { tables := [], views := [], routines := [], columns := [],
      triggers := [{ name := "trgA", parent_table := "tbl", schema := "dbo",
                     is_disabled := false },
                   { name := "trgB", parent_table := "tbl", schema := "dbo",
                     is_disabled := true }] }
    { trigger_name := "trgA", table_name := "tbl", trigger_schema := "dbo" }
    okDriver
    [{ uri := "mcp://ssms/master/triggers/trgA", name := "trgA",
       description := "Trigger: trgA on table tbl", mimeType := "text/sql" }]
    { uri := "mcp://ssms/master/triggers/trgA", name := "trgA",
      description := "Trigger: trgA on table tbl", mimeType := "text/sql" }
  exact ⟨h.1.mp (by decide), h.2 (by rfl) (by decide)⟩
